import Mathlib

/-!
Verification development for the CMO monitoring-panel front end.

The development shallowly embeds the data model and operations of the
virtualized alert list (VirtualizedAlertList in the sources), its infinite
loader, virtualization engine and filter engine, and the radial-menu
settings store (radialMenuStore.ts).

The hooks useInfiniteLoading, useVirtualization and useAlertFiltering are
only imported by the container in the source tree; their bodies are not
part of it, so those engines are modelled from the specification text and
each such definition carries a doc comment starting with the words
Modelled from the spec.  Everything else is translated directly from the
TypeScript sources.
-/

/- ======================================================================
   radialMenuStore.ts
   ====================================================================== -/

/-- Embeds canUseAction from radialMenuStore.ts: returns true when the
required-permission list is empty, otherwise when some required permission
is contained in the user-permission list. -/
def canUseAction (userPermissions : List String) (requiredPermissions : List String) : Bool :=
  if requiredPermissions.length = 0 then true
  else requiredPermissions.any (fun perm => userPermissions.contains perm)

/-- Embeds toggleFavorite from radialMenuStore.ts: the favourites list is
copied, indexOf locates the action id, and either splice removes the one
element at that index (JS test index > -1, i.e. the id is present) or the
id is pushed onto the end. -/
def toggleFavorite {α : Type} [DecidableEq α] (favorites : List α) (actionId : α) : List α :=
  if favorites.indexOf actionId < favorites.length
  then favorites.eraseIdx (favorites.indexOf actionId)
  else favorites ++ [actionId]

/- ======================================================================
   Infinite Loader (useInfiniteLoading is not in the source tree;
   modelled from specification section 4.2)
   ====================================================================== -/

/-- Modelled from the spec: the Infinite Loader state machine
Idle to Loading to Idle (success) or Idle to Loading to Error (failure).
The useInfiniteLoading hook body is missing from the source tree. -/
inductive LoadStatus
  | idle
  | loading
  | error
deriving DecidableEq

/-- Modelled from the spec: the Load Cursor of the Infinite Loader —
status flag, accumulated item sequence, has-more flag, plus a counter of
underlying fetches used to state the at-most-one-in-flight property.
The useInfiniteLoading hook body is missing from the source tree. -/
structure LoaderState (α : Type) where
  status : LoadStatus
  items : List α
  hasMore : Bool
  fetches : Nat
deriving DecidableEq

/-- Modelled from the spec: the initial loader state — hasMore starts
true, no items loaded, no fetch issued. -/
def initLoader (α : Type) : LoaderState α :=
  { status := LoadStatus.idle, items := [], hasMore := true, fetches := 0 }

/-- Modelled from the spec: loadMore is a no-op if already Loading or
hasMore is false; otherwise it enters Loading and issues one underlying
fetch.  The useInfiniteLoading hook body is missing from the source tree. -/
def loadMore {α : Type} (s : LoaderState α) : LoaderState α :=
  if s.status = LoadStatus.loading ∨ s.hasMore = false then s
  else { s with status := LoadStatus.loading, fetches := s.fetches + 1 }

/-- Modelled from the spec: the events that drive the loader — a loadMore
request, completion of the in-flight fetch (success with returned items
and the response has-more flag, or failure), and an explicit full reset. -/
inductive LoadEvent (α : Type)
  | loadMore
  | success (newItems : List α) (more : Bool)
  | failure
  | reset
deriving DecidableEq

/-- Modelled from the spec: one transition of the loader.  On success the
returned items are appended in the order received and hasMore is updated
from the response; on failure the loader enters Error, preserving the
previously loaded items and hasMore; completions apply only to an
in-flight load; reset restores the initial state. -/
def stepLoader {α : Type} (s : LoaderState α) : LoadEvent α → LoaderState α
  | LoadEvent.loadMore => loadMore s
  | LoadEvent.success newItems more =>
      if s.status = LoadStatus.loading then
        { s with status := LoadStatus.idle, items := s.items ++ newItems, hasMore := more }
      else s
  | LoadEvent.failure =>
      if s.status = LoadStatus.loading then { s with status := LoadStatus.error } else s
  | LoadEvent.reset => initLoader α

/-- Invariant of reachable loader states: while hasMore is false the
loader is never in the Loading state (hasMore only changes when an
in-flight load completes, which leaves Loading). -/
def loaderInv {α : Type} (s : LoaderState α) : Prop :=
  s.hasMore = false → s.status ≠ LoadStatus.loading

/- ======================================================================
   VirtualizedAlertList container (part_000 of the sources)
   ====================================================================== -/

/-- The four mutually exclusive render states of VirtualizedAlertList, in
source order: full-screen loading, full-screen error with retry, empty
state, and the virtualized list view. -/
inductive RenderResult
  | loadingState
  | errorState
  | emptyState
  | listView
deriving DecidableEq

/-- Embeds the render-state precedence of VirtualizedAlertList: loading
indicator when loading with zero items, error state when an error is set
and zero items are loaded, empty state when the filtered sequence is empty
and no filtering is running, otherwise the virtualized list. -/
def renderState (error : Option String) (isLoading : Bool)
    (alertsLength filteredLength : Nat) (isFiltering : Bool) : RenderResult :=
  if isLoading = true ∧ alertsLength = 0 then RenderResult.loadingState
  else if error.isSome ∧ alertsLength = 0 then RenderResult.errorState
  else if filteredLength = 0 ∧ isFiltering = false then RenderResult.emptyState
  else RenderResult.listView

/-- Embeds the error binding of VirtualizedAlertList: the container hard
codes the error to null (source comment: Replace with actual error
state), so no error value ever reaches the render logic. -/
def containerError : Option String := none

/-- Embeds the onScroll callback VirtualizedAlertList passes to the
virtualization hook: when an onLoadMore callback is present, no load is in
flight and hasMore holds, it fires the load once the scroll offset passes
the threshold scrollHeight - clientHeight - 200.  Returns whether the
callback invokes onLoadMore on this scroll tick. -/
def onScrollHandler (hasOnLoadMore isLoading hasMore : Bool)
    (scrollTop scrollHeight clientHeight : Int) : Bool :=
  if hasOnLoadMore = true ∧ isLoading = false ∧ hasMore = true then
    if scrollTop ≥ scrollHeight - clientHeight - 200 then true else false
  else false

/-- Embeds the handler for the item-added batch of useAlertSubscription in
VirtualizedAlertList: the body of the callback is empty, so the rendered
sequence is returned unchanged. -/
def handleItemsAdded {α : Type} (current : List α) (_newItems : List α) : List α :=
  current

/-- Embeds the handler for the item-updated event of useAlertSubscription
in VirtualizedAlertList: the body of the callback is empty, so the
rendered sequence is returned unchanged. -/
def handleItemUpdated {α : Type} (current : List α) (_updatedItem : α) : List α :=
  current

/-- Embeds the handler for the item-removed event of useAlertSubscription
in VirtualizedAlertList: the body of the callback is empty, so the
rendered sequence is returned unchanged. -/
def handleItemRemoved {α : Type} (current : List α) (_itemId : String) : List α :=
  current

/-- The keys handled by the keyboard-navigation callback of
VirtualizedAlertList. -/
inductive Key
  | arrowDown
  | arrowUp
  | pageDown
  | pageUp
  | home
  | endKey
  | other
deriving DecidableEq

/-- Embeds handleKeyDown of VirtualizedAlertList: from the current index
(the start of the visible range) the arrow keys move by one, the page
keys by ten, Home targets index 0 and End the last filtered index, each
clamped with Math.min / Math.max against the filtered length; the result
is the index passed to scrollToItem, or none for unhandled keys. -/
def handleKeyDown (key : Key) (currentIndex : Int) (filteredLength : Int) : Option Int :=
  match key with
  | Key.arrowDown => some (min (currentIndex + 1) (filteredLength - 1))
  | Key.arrowUp => some (max (currentIndex - 1) 0)
  | Key.pageDown => some (min (currentIndex + 10) (filteredLength - 1))
  | Key.pageUp => some (max (currentIndex - 10) 0)
  | Key.home => some 0
  | Key.endKey => some (filteredLength - 1)
  | Key.other => none

/- ======================================================================
   Virtualization Engine (useVirtualization is not in the source tree;
   modelled from specification sections 3 and 4.1)
   ====================================================================== -/

/-- Modelled from the spec: computeVisibleRange of the Virtualization
Engine for uniform item heights (the useVirtualization hook body is
missing from the source tree).  An empty sequence yields the empty range
(0, 0); a container at least as tall as the content yields the full
range; otherwise the first and last item overlapping the viewport are
taken, padded by the overscan count and clamped to the index bounds. -/
def computeVisibleRange (scrollTop containerHeight itemHeight overscan itemCount : Nat) :
    Nat × Nat :=
  if itemCount = 0 then (0, 0)
  else if itemCount * itemHeight ≤ containerHeight then (0, itemCount - 1)
  else
    (min (scrollTop / itemHeight - overscan) (itemCount - 1),
     min ((scrollTop + containerHeight - 1) / itemHeight + overscan) (itemCount - 1))

/- ======================================================================
   Filter Engine (useAlertFiltering is not in the source tree; the alert
   shape is taken from the mapping in VirtualizedAlertList, the filter
   set is modelled from specification sections 3 and 4.3)
   ====================================================================== -/

/-- Alert severity as produced by the severity mapping in
VirtualizedAlertList (critica to critical, alta to high, media to medium,
otherwise low). -/
inductive Severity
  | critical
  | high
  | medium
  | low
deriving DecidableEq

/-- Alert status as produced by the mapping in VirtualizedAlertList
(atendida to resolved, otherwise active). -/
inductive AlertStatus
  | active
  | resolved
deriving DecidableEq

/-- The alert record as constructed by the mapping in
VirtualizedAlertList: id, timestamp, severity, precinto id, message and
status (the location field is dropped as irrelevant to filtering). -/
structure Alert where
  id : String
  timestamp : Nat
  severity : Severity
  precintoId : String
  message : String
  status : AlertStatus
deriving DecidableEq

/-- Modelled from the spec: the Filter Set of the Filter Engine — the
active predicate configuration over alert fields (the useAlertFiltering
hook body is missing from the source tree).  An empty severity or status
list means the predicate is inactive; the optional search text matches
against the alert message. -/
structure AlertFilters where
  severities : List Severity
  statuses : List AlertStatus
  searchText : Option String
deriving DecidableEq

/-- Modelled from the spec: whether one alert passes the active predicate
combination — all active predicates must accept the alert. -/
def matchesFilters (f : AlertFilters) (a : Alert) : Bool :=
  (f.severities.isEmpty || f.severities.contains a.severity) &&
  (f.statuses.isEmpty || f.statuses.contains a.status) &&
  (match f.searchText with
   | none => true
   | some t => decide (1 < (a.message.splitOn t).length) || a.message == t)

/-- Modelled from the spec: the Filter Engine produces the filtered
sequence by keeping exactly the alerts passing the predicate
combination, in their original order. -/
def applyFilters (f : AlertFilters) (alerts : List Alert) : List Alert :=
  alerts.filter (matchesFilters f)

/- ======================================================================
   Theorems
   ====================================================================== -/

/-- Helper: the branch test of toggleFavorite coincides with membership,
and on the present branch the splice is the erase of the first
occurrence. -/
theorem toggleFavorite_eq_erase_or_push {α : Type} [DecidableEq α]
    (favorites : List α) (actionId : α) :
    toggleFavorite favorites actionId =
      if actionId ∈ favorites then favorites.erase actionId
      else favorites ++ [actionId] := by
  unfold toggleFavorite
  by_cases h : actionId ∈ favorites
  · rw [if_pos (List.indexOf_lt_length.mpr h), if_pos h,
      List.eraseIdx_indexOf_eq_erase]
  · rw [if_neg (fun hlt => h (List.indexOf_lt_length.mp hlt)), if_neg h]

/-- C10: canUseAction returns true exactly when the required-permission
list is empty or at least one required permission occurs among the user
permissions of the store — a disjunctive check; in particular it returns
true on the empty list regardless of the user permissions. -/
theorem canUseAction_disjunctive (userPermissions requiredPermissions : List String) :
    canUseAction userPermissions requiredPermissions = true ↔
      (requiredPermissions = [] ∨ ∃ p ∈ requiredPermissions, p ∈ userPermissions) := by
  unfold canUseAction
  rcases requiredPermissions with _ | ⟨p, ps⟩
  · simp
  · simp [List.any_eq_true, List.contains_iff_exists_mem_beq, beq_iff_eq]

/-- C9 counterexample: with the favourites list containing the id twice
(reachable through updateSettings, which accepts an arbitrary list), two
successive toggles remove both copies, so an id that was a favourite is
no longer one. -/
theorem toggleFavorite_twice_counterexample :
    toggleFavorite (toggleFavorite ["a", "a"] "a") "a" = [] ∧
    "a" ∈ ["a", "a"] ∧
    "a" ∉ toggleFavorite (toggleFavorite ["a", "a"] "a") "a" := by
  decide

/-- C9 (amended): on a duplicate-free favourites list, toggling the same
action id twice preserves membership for every id; when the id was absent
the list is restored exactly; when it was present the result is the list
with that occurrence erased and the id re-appended at the end — a
permutation of the original with the toggled id moved to the end. -/
theorem toggleFavorite_twice_involutive {α : Type} [DecidableEq α]
    (favorites : List α) (actionId : α) (hnd : favorites.Nodup) :
    (∀ b, b ∈ toggleFavorite (toggleFavorite favorites actionId) actionId ↔ b ∈ favorites) ∧
    (actionId ∉ favorites →
      toggleFavorite (toggleFavorite favorites actionId) actionId = favorites) ∧
    (actionId ∈ favorites →
      toggleFavorite (toggleFavorite favorites actionId) actionId =
        favorites.erase actionId ++ [actionId] ∧
      (toggleFavorite (toggleFavorite favorites actionId) actionId).Perm favorites) := by
  by_cases h : actionId ∈ favorites
  · have h1 : toggleFavorite favorites actionId = favorites.erase actionId := by
      rw [toggleFavorite_eq_erase_or_push, if_pos h]
    have hnotmem : actionId ∉ favorites.erase actionId := by
      intro hmem
      exact ((hnd.mem_erase_iff).mp hmem).1 rfl
    have h2 : toggleFavorite (toggleFavorite favorites actionId) actionId =
        favorites.erase actionId ++ [actionId] := by
      rw [h1, toggleFavorite_eq_erase_or_push, if_neg hnotmem]
    have hperm : (favorites.erase actionId ++ [actionId]).Perm favorites :=
      ((List.perm_append_singleton actionId (favorites.erase actionId)).trans
        (List.perm_cons_erase h).symm)
    refine ⟨?_, fun habs => absurd h habs, fun _ => ⟨h2, h2 ▸ hperm⟩⟩
    intro b
    rw [h2]
    exact (hperm.mem_iff)
  · have h1 : toggleFavorite favorites actionId = favorites ++ [actionId] := by
      rw [toggleFavorite_eq_erase_or_push, if_neg h]
    have h2 : toggleFavorite (toggleFavorite favorites actionId) actionId = favorites := by
      rw [h1, toggleFavorite_eq_erase_or_push,
        if_pos (List.mem_append_right favorites (List.mem_singleton_self actionId)),
        List.erase_append_right [actionId] h, List.erase_cons_head, List.append_nil]
    refine ⟨fun b => by rw [h2], fun _ => h2, fun hmem => absurd hmem h⟩

/-- C9 witness: the amended theorem applied to the duplicate-free list
x, y and the id x — membership of y is preserved by the double toggle. -/
theorem toggleFavorite_twice_involutive_witness :
    ("y" ∈ toggleFavorite (toggleFavorite ["x", "y"] "x") "x" ↔ "y" ∈ ["x", "y"]) ∧
    toggleFavorite (toggleFavorite ["x", "y"] "x") "x" = ["x", "y"].erase "x" ++ ["x"] :=
  ⟨(toggleFavorite_twice_involutive ["x", "y"] "x" (by decide)).1 "y",
   ((toggleFavorite_twice_involutive ["x", "y"] "x" (by decide)).2.2 (by decide)).1⟩

/-- C2: at most one loadMore fetch is outstanding.  A loadMore call while
the loader is Loading or hasMore is false leaves the state untouched and
issues no fetch; from a state able to load, two loadMore calls in
immediate succession (no completion in between) issue exactly one
underlying fetch, the second call being a no-op. -/
theorem loadMore_at_most_one_in_flight {α : Type} (s : LoaderState α) :
    ((s.status = LoadStatus.loading ∨ s.hasMore = false) → loadMore s = s) ∧
    (s.status ≠ LoadStatus.loading → s.hasMore = true →
      (loadMore (loadMore s)).fetches = s.fetches + 1 ∧
      loadMore (loadMore s) = loadMore s) := by
  constructor
  · intro h
    unfold loadMore
    rw [if_pos h]
  · intro hs hm
    have h1 : ¬(s.status = LoadStatus.loading ∨ s.hasMore = false) := by
      rintro (h | h)
      · exact hs h
      · rw [hm] at h
        cases h
    simp [loadMore, h1]

/-- C2 witness: from the initial loader state two immediate loadMore
calls issue exactly one fetch, and on a state already in Loading a
loadMore call is the identity. -/
theorem loadMore_at_most_one_in_flight_witness :
    (loadMore (loadMore (initLoader Nat))).fetches = (initLoader Nat).fetches + 1 ∧
    loadMore ({ status := LoadStatus.loading, items := [], hasMore := true, fetches := 5 } :
        LoaderState Nat) =
      { status := LoadStatus.loading, items := [], hasMore := true, fetches := 5 } :=
  ⟨((loadMore_at_most_one_in_flight (initLoader Nat)).2 (by decide) (by decide)).1,
   (loadMore_at_most_one_in_flight _).1 (Or.inl rfl)⟩

/-- Helper: every loader transition preserves the invariant that hasMore
false excludes the Loading status. -/
theorem loaderInv_step {α : Type} (s : LoaderState α) (e : LoadEvent α)
    (hinv : loaderInv s) : loaderInv (stepLoader s e) := by
  cases e with
  | loadMore =>
      simp only [stepLoader]
      unfold loadMore
      split_ifs with h
      · exact hinv
      · intro hm
        exact absurd (Or.inr hm) h
  | success newItems more =>
      simp only [stepLoader]
      split_ifs with h
      · intro _
        simp
      · exact hinv
  | failure =>
      simp only [stepLoader]
      split_ifs with h
      · intro _
        simp
      · exact hinv
  | reset =>
      simp only [stepLoader]
      intro hm
      simp [initLoader] at hm

/-- Helper: a loader state satisfying the invariant with hasMore false is
a fixed point of every transition other than reset. -/
theorem stepLoader_frozen {α : Type} (s : LoaderState α) (e : LoadEvent α)
    (hinv : loaderInv s) (hm : s.hasMore = false) (hne : e ≠ LoadEvent.reset) :
    stepLoader s e = s := by
  cases e with
  | loadMore =>
      simp only [stepLoader]
      unfold loadMore
      rw [if_pos (Or.inr hm)]
  | success newItems more =>
      simp only [stepLoader]
      rw [if_neg (hinv hm)]
  | failure =>
      simp only [stepLoader]
      rw [if_neg (hinv hm)]
  | reset => exact absurd rfl hne

/-- Helper: folding reset-free events over a frozen state (hasMore false,
invariant holding) leaves the state unchanged. -/
theorem foldl_stepLoader_frozen {α : Type} (evs : List (LoadEvent α)) (s : LoaderState α)
    (hre : ∀ e ∈ evs, e ≠ LoadEvent.reset) (hinv : loaderInv s) (hm : s.hasMore = false) :
    evs.foldl stepLoader s = s := by
  induction evs with
  | nil => rfl
  | cons e evs ih =>
      rw [List.foldl_cons, stepLoader_frozen s e hinv hm (hre e (List.mem_cons_self e evs))]
      exact ih (fun x hx => hre x (List.mem_cons_of_mem e hx))

/-- Helper: the loader invariant holds along every fold of transitions. -/
theorem loaderInv_foldl {α : Type} (evs : List (LoadEvent α)) (s : LoaderState α)
    (hinv : loaderInv s) : loaderInv (evs.foldl stepLoader s) := by
  induction evs generalizing s with
  | nil => exact hinv
  | cons e evs ih =>
      rw [List.foldl_cons]
      exact ih _ (loaderInv_step s e hinv)

/-- C3: hasMore starts true, and it is monotone downward along every
trace of loader transitions from the initial state: once a prefix of the
trace has driven hasMore to false, extending the trace with any reset-free
events — further loadMore calls, successful or failed completions — keeps
hasMore false. -/
theorem hasMore_monotone (α : Type) :
    (initLoader α).hasMore = true ∧
    ∀ (evs₁ evs₂ : List (LoadEvent α)),
      (∀ e ∈ evs₂, e ≠ LoadEvent.reset) →
      (evs₁.foldl stepLoader (initLoader α)).hasMore = false →
      ((evs₁ ++ evs₂).foldl stepLoader (initLoader α)).hasMore = false := by
  refine ⟨rfl, ?_⟩
  intro evs₁ evs₂ hre hfm
  have hinv0 : loaderInv (initLoader α) := by
    intro h
    simp [initLoader] at h
  have hinv1 : loaderInv (evs₁.foldl stepLoader (initLoader α)) :=
    loaderInv_foldl evs₁ (initLoader α) hinv0
  rw [List.foldl_append, foldl_stepLoader_frozen evs₂ _ hre hinv1 hfm]
  exact hfm

/-- C3 witness: a trace that exhausts the data (success reporting no more
items) followed by a further loadMore call and a failure keeps hasMore
false. -/
theorem hasMore_monotone_witness :
    ((([LoadEvent.loadMore, LoadEvent.success ([] : List Nat) false] ++
        [LoadEvent.loadMore, LoadEvent.failure]).foldl stepLoader (initLoader Nat)).hasMore
      = false) :=
  (hasMore_monotone Nat).2 [LoadEvent.loadMore, LoadEvent.success [] false]
    [LoadEvent.loadMore, LoadEvent.failure] (by decide) (by decide)

/-- C1 (code divergence): after twenty loaded items and a rejected
loadMore, the loader model keeps the items and hasMore unchanged, and the
dedicated error render state indeed requires zero loaded items — but the
container hard codes its error binding to null, so for no combination of
inputs does the render logic ever show the error state, and no error
indicator exists in the list view: the error-indicator part of the claim
does not hold on the source. -/
theorem error_indicator_never_rendered :
    ((stepLoader (stepLoader
        ({ status := LoadStatus.idle, items := List.range 20, hasMore := true, fetches := 1 } :
          LoaderState Nat) LoadEvent.loadMore) LoadEvent.failure).items = List.range 20 ∧
     (stepLoader (stepLoader
        ({ status := LoadStatus.idle, items := List.range 20, hasMore := true, fetches := 1 } :
          LoaderState Nat) LoadEvent.loadMore) LoadEvent.failure).hasMore = true) ∧
    containerError = none ∧
    (∀ (isLoading : Bool) (alertsLength filteredLength : Nat) (isFiltering : Bool),
      renderState containerError isLoading alertsLength filteredLength isFiltering ≠
        RenderResult.errorState) ∧
    (∀ (e : Option String) (isLoading : Bool) (n filteredLength : Nat)
        (isFiltering : Bool),
      renderState e isLoading (n + 1) filteredLength isFiltering ≠
        RenderResult.errorState) := by
  refine ⟨by decide, rfl, ?_, ?_⟩
  · intro isLoading alertsLength filteredLength isFiltering
    unfold renderState containerError
    split_ifs with h1 h2 h3 <;> simp_all
  · intro e isLoading n filteredLength isFiltering
    unfold renderState
    split_ifs with h1 h2 h3 <;> simp_all

/-- C6: the scroll callback of the container invokes onLoadMore exactly
when a callback is installed, no load is in flight, hasMore holds and the
scroll offset is within the last 200 pixels of content; in particular,
while a load is already in progress no scroll tick fires it again. -/
theorem onScroll_trigger_policy (hasOnLoadMore isLoading hasMore : Bool)
    (scrollTop scrollHeight clientHeight : Int) :
    (onScrollHandler hasOnLoadMore isLoading hasMore scrollTop scrollHeight clientHeight = true ↔
      (hasOnLoadMore = true ∧ isLoading = false ∧ hasMore = true ∧
        scrollHeight - clientHeight - 200 ≤ scrollTop)) ∧
    (∀ scrollTop2 : Int,
      onScrollHandler hasOnLoadMore true hasMore scrollTop2 scrollHeight clientHeight = false) := by
  constructor
  · unfold onScrollHandler
    split_ifs with h1 h2
    · simp only [true_iff]
      exact ⟨h1.1, h1.2.1, h1.2.2, h2⟩
    · simp only [false_iff]
      rintro ⟨-, -, -, hle⟩
      exact h2 hle
    · simp only [false_iff]
      rintro ⟨ha, hb, hc, -⟩
      exact h1 ⟨ha, hb, hc⟩
  · intro scrollTop2
    unfold onScrollHandler
    rw [if_neg]
    rintro ⟨-, h, -⟩
    cases h

/-- C7: for a non-empty filtered sequence and an in-bounds current index,
every index the keyboard handler passes to scrollToItem stays within the
filtered bounds, and each key produces exactly the clamped target the
source computes: arrows move by one, page keys by ten, Home targets zero
and End the last filtered index. -/
theorem handleKeyDown_clamped (key : Key) (currentIndex filteredLength : Int)
    (h0 : 0 ≤ currentIndex) (h1 : currentIndex < filteredLength) :
    (∀ j, handleKeyDown key currentIndex filteredLength = some j →
      0 ≤ j ∧ j ≤ filteredLength - 1) ∧
    handleKeyDown Key.arrowDown currentIndex filteredLength =
      some (min (currentIndex + 1) (filteredLength - 1)) ∧
    handleKeyDown Key.arrowUp currentIndex filteredLength =
      some (max (currentIndex - 1) 0) ∧
    handleKeyDown Key.pageDown currentIndex filteredLength =
      some (min (currentIndex + 10) (filteredLength - 1)) ∧
    handleKeyDown Key.pageUp currentIndex filteredLength =
      some (max (currentIndex - 10) 0) ∧
    handleKeyDown Key.home currentIndex filteredLength = some 0 ∧
    handleKeyDown Key.endKey currentIndex filteredLength = some (filteredLength - 1) := by
  refine ⟨?_, rfl, rfl, rfl, rfl, rfl, rfl⟩
  intro j hj
  cases key <;> simp [handleKeyDown] at hj <;> omega

/-- C7 witness: with fifty filtered items the End key from index zero
scrolls to index forty-nine, within bounds. -/
theorem handleKeyDown_clamped_witness :
    handleKeyDown Key.endKey 0 50 = some 49 ∧ (0 : Int) ≤ 49 ∧ (49 : Int) ≤ 50 - 1 := by
  refine ⟨by decide, ?_, ?_⟩
  · exact ((handleKeyDown_clamped Key.endKey 0 50 (by decide) (by decide)).1 49 (by decide)).1
  · exact ((handleKeyDown_clamped Key.endKey 0 50 (by decide) (by decide)).1 49 (by decide)).2

/-- C8 (code divergence): the subscription handlers of the container have
empty bodies, so no live event ever changes the rendered sequence: an
added item does not appear, an update is dropped, a removal leaves the
item in place — evaluated here at concrete inputs together with the
general no-op equations. -/
theorem subscription_handlers_noop :
    (∀ (current newItems : List Nat), handleItemsAdded current newItems = current) ∧
    (∀ (current : List Nat) (updatedItem : Nat),
      handleItemUpdated current updatedItem = current) ∧
    (∀ (current : List Nat) (itemId : String), handleItemRemoved current itemId = current) ∧
    handleItemsAdded ([0, 1] : List Nat) [2] = [0, 1] ∧
    (2 : Nat) ∉ handleItemsAdded ([0, 1] : List Nat) [2] ∧
    handleItemUpdated ([0, 1] : List Nat) 7 = [0, 1] ∧
    handleItemRemoved ([0, 1] : List Nat) "0" = [0, 1] :=
  ⟨fun _ _ => rfl, fun _ _ => rfl, fun _ _ => rfl, rfl, by decide, rfl, rfl⟩

/-- C5: for every filter configuration the Filter Engine output is a
stable subsequence of the input — the filtered sequence embeds in the
unfiltered one preserving relative order, so no two alerts passing the
predicates are ever reordered. -/
theorem applyFilters_stable (f : AlertFilters) (alerts : List Alert) :
    (applyFilters f alerts).Sublist alerts :=
  List.filter_sublist alerts

/-- C4 counterexample: one item of height ten in a container of height
one hundred — the returned range is the full range (0, 0) and cannot
cover the viewport, so the claimed coverage inequality fails when the
total content is shorter than the container. -/
theorem visibleRange_cover_counterexample :
    computeVisibleRange 0 100 10 0 1 = (0, 0) ∧
    ¬(((computeVisibleRange 0 100 10 0 1).2 - (computeVisibleRange 0 100 10 0 1).1 + 1) * 10
        ≥ 100) := by
  decide

/-- C4 (amended): for positive item and container heights the Visible
Range is within bounds — the empty range (0, 0) on an empty sequence,
otherwise 0 ≤ startIndex ≤ endIndex < itemCount — and whenever a full
viewport of content lies at or below the scroll position
(scrollTop + containerHeight ≤ itemCount * itemHeight, which requires the
content to be at least as tall as the container) the range covers the
viewport: (endIndex - startIndex + 1) * itemHeight ≥ containerHeight. -/
theorem visibleRange_bounds_and_cover
    (scrollTop containerHeight itemHeight overscan itemCount : Nat)
    (hh : 1 ≤ itemHeight) (hH : 1 ≤ containerHeight) :
    (itemCount = 0 →
      computeVisibleRange scrollTop containerHeight itemHeight overscan itemCount = (0, 0)) ∧
    (1 ≤ itemCount →
      (computeVisibleRange scrollTop containerHeight itemHeight overscan itemCount).1 ≤
        (computeVisibleRange scrollTop containerHeight itemHeight overscan itemCount).2 ∧
      (computeVisibleRange scrollTop containerHeight itemHeight overscan itemCount).2 <
        itemCount) ∧
    (scrollTop + containerHeight ≤ itemCount * itemHeight →
      ((computeVisibleRange scrollTop containerHeight itemHeight overscan itemCount).2 -
        (computeVisibleRange scrollTop containerHeight itemHeight overscan itemCount).1 + 1) *
        itemHeight ≥ containerHeight) := by
  refine ⟨?_, ?_, ?_⟩
  · intro h0
    unfold computeVisibleRange
    rw [if_pos h0]
  · intro hN
    unfold computeVisibleRange
    rw [if_neg (by omega : ¬itemCount = 0)]
    split_ifs with hfull
    · dsimp only
      omega
    · dsimp only
      have hdiv : scrollTop / itemHeight ≤ (scrollTop + containerHeight - 1) / itemHeight :=
        Nat.div_le_div_right (by omega)
      constructor
      · apply min_le_min _ le_rfl
        generalize scrollTop / itemHeight = q at hdiv
        generalize (scrollTop + containerHeight - 1) / itemHeight = e at hdiv
        omega
      · generalize (scrollTop + containerHeight - 1) / itemHeight = e
        omega
  · intro hcov
    unfold computeVisibleRange
    by_cases h0 : itemCount = 0
    · subst h0
      refine absurd hcov ?_
      simp only [Nat.zero_mul]
      omega
    rw [if_neg h0]
    split_ifs with hfull
    · dsimp only
      have h1 : containerHeight ≤ itemCount * itemHeight :=
        le_trans (Nat.le_add_left _ _) hcov
      have h2 : itemCount - 1 - 0 + 1 = itemCount := by omega
      rw [h2]
      exact h1
    · dsimp only
      have hdiv : scrollTop / itemHeight ≤ (scrollTop + containerHeight - 1) / itemHeight :=
        Nat.div_le_div_right (by omega)
      have hlt : (scrollTop + containerHeight - 1) / itemHeight < itemCount := by
        rw [Nat.div_lt_iff_lt_mul (by omega : 0 < itemHeight)]
        exact lt_of_lt_of_le (by omega) hcov
      have hf4 : (containerHeight - 1) / itemHeight + scrollTop / itemHeight ≤
          (scrollTop + containerHeight - 1) / itemHeight := by
        have hq2 : itemHeight * (scrollTop / itemHeight) ≤ scrollTop := by
          rw [Nat.mul_comm]
          exact Nat.div_mul_le_self _ _
        have hstep : containerHeight - 1 + itemHeight * (scrollTop / itemHeight) ≤
            scrollTop + containerHeight - 1 := by
          generalize itemHeight * (scrollTop / itemHeight) = A at hq2 ⊢
          omega
        calc (containerHeight - 1) / itemHeight + scrollTop / itemHeight
            = (containerHeight - 1 + itemHeight * (scrollTop / itemHeight)) / itemHeight := by
              rw [Nat.add_mul_div_left _ _ (by omega : 0 < itemHeight)]
          _ ≤ (scrollTop + containerHeight - 1) / itemHeight := Nat.div_le_div_right hstep
      have hf5 : ((containerHeight - 1) / itemHeight + 1) * itemHeight ≥ containerHeight := by
        have hdm := Nat.div_add_mod (containerHeight - 1) itemHeight
        have hml : (containerHeight - 1) % itemHeight < itemHeight := Nat.mod_lt _ (by omega)
        have hexp : ((containerHeight - 1) / itemHeight + 1) * itemHeight =
            itemHeight * ((containerHeight - 1) / itemHeight) + itemHeight := by ring
        rw [hexp]
        generalize hB : (containerHeight - 1) / itemHeight = B at hdm ⊢
        generalize hM : (containerHeight - 1) % itemHeight = M at hdm hml
        generalize hC : itemHeight * B = C at hdm ⊢
        omega
      generalize hqv : scrollTop / itemHeight = q at hdiv hf4 ⊢
      generalize hev : (scrollTop + containerHeight - 1) / itemHeight = e at hdiv hlt hf4 ⊢
      generalize hDv : (containerHeight - 1) / itemHeight = D at hf4 hf5
      have hkey : D + 1 ≤
          min (e + overscan) (itemCount - 1) - min (q - overscan) (itemCount - 1) + 1 := by
        omega
      calc containerHeight ≤ (D + 1) * itemHeight := hf5
        _ ≤ (min (e + overscan) (itemCount - 1) - min (q - overscan) (itemCount - 1) + 1) *
            itemHeight := Nat.mul_le_mul_right _ hkey

/-- C4 witness: five items of height ten, container height ten, scroll
offset zero, no overscan — the bounds hold and the returned range covers
the viewport. -/
theorem visibleRange_bounds_and_cover_witness :
    ((computeVisibleRange 0 10 10 0 5).1 ≤ (computeVisibleRange 0 10 10 0 5).2 ∧
      (computeVisibleRange 0 10 10 0 5).2 < 5) ∧
    ((computeVisibleRange 0 10 10 0 5).2 - (computeVisibleRange 0 10 10 0 5).1 + 1) * 10 ≥ 10 :=
  ⟨(visibleRange_bounds_and_cover 0 10 10 0 5 (by decide) (by decide)).2.1 (by decide),
   (visibleRange_bounds_and_cover 0 10 10 0 5 (by decide) (by decide)).2.2 (by decide)⟩
